import Mathlib

/-!
Verification development for the dlcdevkit repository: a shallow embedding of
the sled-backed DLC storage provider (storage/sled.rs) and of the DlcDevKit
manager loop (ddk.rs), together with theorems settling the claims about them.

Bytes are modelled as lists of naturals; sled trees as association lists from
key bytes to value bytes; panics and storage errors are explicit outcomes.
-/

namespace DlcDevKit

/-- Byte strings, the currency of the storage layer. -/
abbrev Bytes := List Nat

/-- Length-prefixed encoding of a byte field, part of the modelled payload
codec for the external dlc-manager Serializable implementations. -/
def encBytes (b : Bytes) : Bytes := b.length :: b

/-- Decoder for a length-prefixed byte field: returns the field and the
remaining input, or none when the input is malformed. -/
def decBytes : Bytes → Option (Bytes × Bytes)
  | [] => none
  | n :: rest => if n ≤ rest.length then some (rest.take n, rest.drop n) else none

/-- Errors of the storage layer, mirroring dlc-manager Error as used by
storage/sled.rs: a storage error with a message, or an io error raised by a
failed cursor read. -/
inductive StoreErr : Type where
  | storageError (msg : String)
  | ioError (msg : String)
deriving DecidableEq

/-- Outcome of one storage operation: success, a returned storage error, or a
process panic (rust expect/unwrap), which the rust code distinguishes from a
returned error. -/
inductive DbResult (α : Type) : Type where
  | ok (a : α)
  | err (e : StoreErr)
  | panic (msg : String)
deriving DecidableEq

/-- True exactly when the result is a returned storage error. -/
def DbResult.isErr {α : Type} : DbResult α → Bool
  | .err _ => true
  | _ => false

/-- Modelled from the spec: the twelve substates of a signed channel, from
dlc-manager SignedChannelStateType, treated as opaque input by the storage
layer apart from its numeric tag. -/
inductive SignedChannelStateType : Type where
  | Established
  | SettledOffered
  | SettledReceived
  | SettledAccepted
  | SettledConfirmed
  | Settled
  | Closing
  | CollaborativeCloseOffered
  | RenewAccepted
  | RenewOffered
  | RenewFinalized
  | RenewConfirmed
deriving DecidableEq

/-- Mirror of SignedChannelPrefix get on a SignedChannelStateType in
storage/sled.rs: the numeric tag of each signed-channel substate. -/
def signedChannelTag : SignedChannelStateType → Nat
  | .Established => 1
  | .SettledOffered => 2
  | .SettledReceived => 3
  | .SettledAccepted => 4
  | .SettledConfirmed => 5
  | .Settled => 6
  | .Closing => 7
  | .CollaborativeCloseOffered => 8
  | .RenewAccepted => 9
  | .RenewOffered => 10
  | .RenewFinalized => 11
  | .RenewConfirmed => 12

/-- Modelled from the spec: inverse tag lookup used by the modelled signed
channel payload codec (the real SignedChannel deserializer recovers the state
from the payload bytes). -/
def signedStateFromTag : Nat → Option SignedChannelStateType
  | 1 => some .Established
  | 2 => some .SettledOffered
  | 3 => some .SettledReceived
  | 4 => some .SettledAccepted
  | 5 => some .SettledConfirmed
  | 6 => some .Settled
  | 7 => some .Closing
  | 8 => some .CollaborativeCloseOffered
  | 9 => some .RenewAccepted
  | 10 => some .RenewOffered
  | 11 => some .RenewFinalized
  | 12 => some .RenewConfirmed
  | _ => none

/-- Modelled from the spec: an offered contract of the external dlc-manager
crate, reduced to its storage-layer-visible data: the temporary id assigned at
offer time and the rest of its serialized form as opaque body bytes. -/
structure OfferedContract : Type where
  id : Bytes
  body : Bytes
deriving DecidableEq

/-- Modelled from the spec: an accepted contract, carrying the temporary id of
the offer it came from and its final contract id. -/
structure AcceptedContract : Type where
  temporaryId : Bytes
  contractId : Bytes
  body : Bytes
deriving DecidableEq

/-- Modelled from the spec: a signed contract (also used for the Confirmed and
Refunded contract variants), carrying temporary and final ids. -/
structure SignedContract : Type where
  temporaryId : Bytes
  contractId : Bytes
  body : Bytes
deriving DecidableEq

/-- Modelled from the spec: a failed-accept contract record. -/
structure FailedAcceptContract : Type where
  id : Bytes
  body : Bytes
deriving DecidableEq

/-- Modelled from the spec: a failed-sign contract record. -/
structure FailedSignContract : Type where
  id : Bytes
  body : Bytes
deriving DecidableEq

/-- Modelled from the spec: a pre-closed contract record. -/
structure PreClosedContract : Type where
  id : Bytes
  body : Bytes
deriving DecidableEq

/-- Modelled from the spec: a closed contract record. -/
structure ClosedContract : Type where
  id : Bytes
  body : Bytes
deriving DecidableEq

/-- Modelled from the spec: serialization of an offered contract by the
external Serializable implementation, as an injective byte encoding. -/
def OfferedContract.serialize (o : OfferedContract) : Bytes :=
  encBytes o.id ++ o.body

/-- Modelled from the spec: deserialization of an offered contract; fails on
malformed input. -/
def OfferedContract.deserialize (b : Bytes) : Except StoreErr OfferedContract :=
  match decBytes b with
  | some (i, rest) => .ok ⟨i, rest⟩
  | none => .error (.storageError "deserialize")

/-- Modelled from the spec: serialization of an accepted contract. -/
def AcceptedContract.serialize (a : AcceptedContract) : Bytes :=
  encBytes a.temporaryId ++ encBytes a.contractId ++ a.body

/-- Modelled from the spec: deserialization of an accepted contract. -/
def AcceptedContract.deserialize (b : Bytes) : Except StoreErr AcceptedContract :=
  match decBytes b with
  | some (t, r1) =>
    match decBytes r1 with
    | some (c, rest) => .ok ⟨t, c, rest⟩
    | none => .error (.storageError "deserialize")
  | none => .error (.storageError "deserialize")

/-- Modelled from the spec: serialization of a signed contract. -/
def SignedContract.serialize (s : SignedContract) : Bytes :=
  encBytes s.temporaryId ++ encBytes s.contractId ++ s.body

/-- Modelled from the spec: deserialization of a signed contract. -/
def SignedContract.deserialize (b : Bytes) : Except StoreErr SignedContract :=
  match decBytes b with
  | some (t, r1) =>
    match decBytes r1 with
    | some (c, rest) => .ok ⟨t, c, rest⟩
    | none => .error (.storageError "deserialize")
  | none => .error (.storageError "deserialize")

/-- Modelled from the spec: serialization of a failed-accept contract. -/
def FailedAcceptContract.serialize (f : FailedAcceptContract) : Bytes :=
  encBytes f.id ++ f.body

/-- Modelled from the spec: deserialization of a failed-accept contract. -/
def FailedAcceptContract.deserialize (b : Bytes) : Except StoreErr FailedAcceptContract :=
  match decBytes b with
  | some (i, rest) => .ok ⟨i, rest⟩
  | none => .error (.storageError "deserialize")

/-- Modelled from the spec: serialization of a failed-sign contract. -/
def FailedSignContract.serialize (f : FailedSignContract) : Bytes :=
  encBytes f.id ++ f.body

/-- Modelled from the spec: deserialization of a failed-sign contract. -/
def FailedSignContract.deserialize (b : Bytes) : Except StoreErr FailedSignContract :=
  match decBytes b with
  | some (i, rest) => .ok ⟨i, rest⟩
  | none => .error (.storageError "deserialize")

/-- Modelled from the spec: serialization of a pre-closed contract. -/
def PreClosedContract.serialize (p : PreClosedContract) : Bytes :=
  encBytes p.id ++ p.body

/-- Modelled from the spec: deserialization of a pre-closed contract. -/
def PreClosedContract.deserialize (b : Bytes) : Except StoreErr PreClosedContract :=
  match decBytes b with
  | some (i, rest) => .ok ⟨i, rest⟩
  | none => .error (.storageError "deserialize")

/-- Modelled from the spec: serialization of a closed contract. -/
def ClosedContract.serialize (c : ClosedContract) : Bytes :=
  encBytes c.id ++ c.body

/-- Modelled from the spec: deserialization of a closed contract. -/
def ClosedContract.deserialize (b : Bytes) : Except StoreErr ClosedContract :=
  match decBytes b with
  | some (i, rest) => .ok ⟨i, rest⟩
  | none => .error (.storageError "deserialize")

/-- Modelled from the spec: an offered channel (also stored for the Cancelled
channel variant), identified by its temporary channel id. -/
structure OfferedChannel : Type where
  id : Bytes
  body : Bytes
deriving DecidableEq

/-- Modelled from the spec: an accepted channel, carrying the temporary id of
the offer and the final channel id. -/
structure AcceptedChannel : Type where
  temporaryChannelId : Bytes
  channelId : Bytes
  body : Bytes
deriving DecidableEq

/-- Modelled from the spec: a signed channel, carrying its ids, its current
substate type, and the rest of its serialized form as opaque bytes. -/
structure SignedChannel : Type where
  temporaryChannelId : Bytes
  channelId : Bytes
  stateType : SignedChannelStateType
  body : Bytes
deriving DecidableEq

/-- Modelled from the spec: a failed-accept channel record. -/
structure FailedAcceptChannel : Type where
  id : Bytes
  body : Bytes
deriving DecidableEq

/-- Modelled from the spec: a failed-sign channel record. -/
structure FailedSignChannel : Type where
  id : Bytes
  body : Bytes
deriving DecidableEq

/-- Modelled from the spec: a closing channel record. -/
structure ClosingChannel : Type where
  id : Bytes
  body : Bytes
deriving DecidableEq

/-- Modelled from the spec: a closed channel record (also used for the
CounterClosed and CollaborativelyClosed variants). -/
structure ClosedChannel : Type where
  id : Bytes
  body : Bytes
deriving DecidableEq

/-- Modelled from the spec: a closed-punished channel record. -/
structure ClosedPunishedChannel : Type where
  id : Bytes
  body : Bytes
deriving DecidableEq

/-- Modelled from the spec: serialization of an offered channel. -/
def OfferedChannel.serialize (o : OfferedChannel) : Bytes :=
  encBytes o.id ++ o.body

/-- Modelled from the spec: deserialization of an offered channel. -/
def OfferedChannel.deserialize (b : Bytes) : Except StoreErr OfferedChannel :=
  match decBytes b with
  | some (i, rest) => .ok ⟨i, rest⟩
  | none => .error (.storageError "deserialize")

/-- Modelled from the spec: serialization of an accepted channel. -/
def AcceptedChannel.serialize (a : AcceptedChannel) : Bytes :=
  encBytes a.temporaryChannelId ++ encBytes a.channelId ++ a.body

/-- Modelled from the spec: deserialization of an accepted channel. -/
def AcceptedChannel.deserialize (b : Bytes) : Except StoreErr AcceptedChannel :=
  match decBytes b with
  | some (t, r1) =>
    match decBytes r1 with
    | some (c, rest) => .ok ⟨t, c, rest⟩
    | none => .error (.storageError "deserialize")
  | none => .error (.storageError "deserialize")

/-- Modelled from the spec: serialization of a signed channel; the substate is
part of the payload, so the payload alone determines the full value. -/
def SignedChannel.serialize (s : SignedChannel) : Bytes :=
  signedChannelTag s.stateType :: (encBytes s.temporaryChannelId ++ encBytes s.channelId ++ s.body)

/-- Modelled from the spec: deserialization of a signed channel, recovering
the substate from the payload bytes. -/
def SignedChannel.deserialize (b : Bytes) : Except StoreErr SignedChannel :=
  match b with
  | [] => .error (.storageError "deserialize")
  | t :: r0 =>
    match signedStateFromTag t with
    | none => .error (.storageError "deserialize")
    | some st =>
      match decBytes r0 with
      | some (ti, r1) =>
        match decBytes r1 with
        | some (ci, rest) => .ok ⟨ti, ci, st, rest⟩
        | none => .error (.storageError "deserialize")
      | none => .error (.storageError "deserialize")

/-- Modelled from the spec: serialization of a failed-accept channel. -/
def FailedAcceptChannel.serialize (f : FailedAcceptChannel) : Bytes :=
  encBytes f.id ++ f.body

/-- Modelled from the spec: deserialization of a failed-accept channel. -/
def FailedAcceptChannel.deserialize (b : Bytes) : Except StoreErr FailedAcceptChannel :=
  match decBytes b with
  | some (i, rest) => .ok ⟨i, rest⟩
  | none => .error (.storageError "deserialize")

/-- Modelled from the spec: serialization of a failed-sign channel. -/
def FailedSignChannel.serialize (f : FailedSignChannel) : Bytes :=
  encBytes f.id ++ f.body

/-- Modelled from the spec: deserialization of a failed-sign channel. -/
def FailedSignChannel.deserialize (b : Bytes) : Except StoreErr FailedSignChannel :=
  match decBytes b with
  | some (i, rest) => .ok ⟨i, rest⟩
  | none => .error (.storageError "deserialize")

/-- Modelled from the spec: serialization of a closing channel. -/
def ClosingChannel.serialize (c : ClosingChannel) : Bytes :=
  encBytes c.id ++ c.body

/-- Modelled from the spec: deserialization of a closing channel. -/
def ClosingChannel.deserialize (b : Bytes) : Except StoreErr ClosingChannel :=
  match decBytes b with
  | some (i, rest) => .ok ⟨i, rest⟩
  | none => .error (.storageError "deserialize")

/-- Modelled from the spec: serialization of a closed channel. -/
def ClosedChannel.serialize (c : ClosedChannel) : Bytes :=
  encBytes c.id ++ c.body

/-- Modelled from the spec: deserialization of a closed channel. -/
def ClosedChannel.deserialize (b : Bytes) : Except StoreErr ClosedChannel :=
  match decBytes b with
  | some (i, rest) => .ok ⟨i, rest⟩
  | none => .error (.storageError "deserialize")

/-- Modelled from the spec: serialization of a closed-punished channel. -/
def ClosedPunishedChannel.serialize (c : ClosedPunishedChannel) : Bytes :=
  encBytes c.id ++ c.body

/-- Modelled from the spec: deserialization of a closed-punished channel. -/
def ClosedPunishedChannel.deserialize (b : Bytes) : Except StoreErr ClosedPunishedChannel :=
  match decBytes b with
  | some (i, rest) => .ok ⟨i, rest⟩
  | none => .error (.storageError "deserialize")

/-- The Contract enum of dlc-manager as consumed by storage/sled.rs, with the
variants in the order of the ContractPrefix enum. -/
inductive Contract : Type where
  | Offered (o : OfferedContract)
  | Accepted (a : AcceptedContract)
  | Signed (s : SignedContract)
  | Confirmed (s : SignedContract)
  | PreClosed (p : PreClosedContract)
  | Closed (c : ClosedContract)
  | FailedAccept (f : FailedAcceptContract)
  | FailedSign (f : FailedSignContract)
  | Refunded (s : SignedContract)
  | Rejected (o : OfferedContract)
deriving DecidableEq

/-- Modelled from the spec: the external get id accessor of Contract, the key
under which update writes the record. -/
def Contract.get_id : Contract → Bytes
  | .Offered o => o.id
  | .Accepted a => a.contractId
  | .Signed s => s.contractId
  | .Confirmed s => s.contractId
  | .PreClosed p => p.id
  | .Closed c => c.id
  | .FailedAccept f => f.id
  | .FailedSign f => f.id
  | .Refunded s => s.contractId
  | .Rejected o => o.id

/-- Modelled from the spec: the external temporary id accessor of Contract,
the key removed on the Accepted and Signed rekey. -/
def Contract.get_temporary_id : Contract → Bytes
  | .Offered o => o.id
  | .Accepted a => a.temporaryId
  | .Signed s => s.temporaryId
  | .Confirmed s => s.temporaryId
  | .PreClosed p => p.id
  | .Closed c => c.id
  | .FailedAccept f => f.id
  | .FailedSign f => f.id
  | .Refunded s => s.temporaryId
  | .Rejected o => o.id

/-- The Channel enum of dlc-manager as consumed by storage/sled.rs, with the
variants in the order of the ChannelPrefix enum. -/
inductive Channel : Type where
  | Offered (o : OfferedChannel)
  | Accepted (a : AcceptedChannel)
  | Signed (s : SignedChannel)
  | FailedAccept (f : FailedAcceptChannel)
  | FailedSign (f : FailedSignChannel)
  | Closing (c : ClosingChannel)
  | Closed (c : ClosedChannel)
  | CounterClosed (c : ClosedChannel)
  | ClosedPunished (c : ClosedPunishedChannel)
  | CollaborativelyClosed (c : ClosedChannel)
  | Cancelled (o : OfferedChannel)
deriving DecidableEq

/-- Modelled from the spec: the external get id accessor of Channel. -/
def Channel.get_id : Channel → Bytes
  | .Offered o => o.id
  | .Accepted a => a.channelId
  | .Signed s => s.channelId
  | .FailedAccept f => f.id
  | .FailedSign f => f.id
  | .Closing c => c.id
  | .Closed c => c.id
  | .CounterClosed c => c.id
  | .ClosedPunished c => c.id
  | .CollaborativelyClosed c => c.id
  | .Cancelled o => o.id

/-- Modelled from the spec: the external temporary id accessor of Channel,
used only on the Accepted and Signed variants by the storage layer. -/
def Channel.get_temporary_id : Channel → Bytes
  | .Offered o => o.id
  | .Accepted a => a.temporaryChannelId
  | .Signed s => s.temporaryChannelId
  | .FailedAccept f => f.id
  | .FailedSign f => f.id
  | .Closing c => c.id
  | .Closed c => c.id
  | .CounterClosed c => c.id
  | .ClosedPunished c => c.id
  | .CollaborativelyClosed c => c.id
  | .Cancelled o => o.id

/-- Mirror of ContractPrefix get on a Contract in storage/sled.rs: the numeric
tag byte of each contract variant (Offered = 1 through Rejected = 10). -/
def contractTag : Contract → Nat
  | .Offered _ => 1
  | .Accepted _ => 2
  | .Signed _ => 3
  | .Confirmed _ => 4
  | .PreClosed _ => 5
  | .Closed _ => 6
  | .FailedAccept _ => 7
  | .FailedSign _ => 8
  | .Refunded _ => 9
  | .Rejected _ => 10

/-- Mirror of ChannelPrefix get on a Channel in storage/sled.rs: the numeric
tag byte of each channel variant (Offered = 100 through Cancelled = 110). -/
def channelTag : Channel → Nat
  | .Offered _ => 100
  | .Accepted _ => 101
  | .Signed _ => 102
  | .FailedAccept _ => 103
  | .FailedSign _ => 104
  | .Closing _ => 105
  | .Closed _ => 106
  | .CounterClosed _ => 107
  | .ClosedPunished _ => 108
  | .CollaborativelyClosed _ => 109
  | .Cancelled _ => 110

/-- Mirror of serialize on a contract in storage/sled.rs: the payload
serialization of the matched variant with the contract tag byte pushed in
front. -/
def serialize_contract (c : Contract) : Bytes :=
  let serialized := match c with
    | .Offered o => o.serialize
    | .Rejected o => o.serialize
    | .Accepted a => a.serialize
    | .Signed s => s.serialize
    | .Confirmed s => s.serialize
    | .Refunded s => s.serialize
    | .FailedAccept f => f.serialize
    | .FailedSign f => f.serialize
    | .PreClosed p => p.serialize
    | .Closed cl => cl.serialize
  contractTag c :: serialized

/-- Mirror of the ContractPrefix enum of storage/sled.rs, without payloads. -/
inductive ContractKind : Type where
  | Offered
  | Accepted
  | Signed
  | Confirmed
  | PreClosed
  | Closed
  | FailedAccept
  | FailedSign
  | Refunded
  | Rejected
deriving DecidableEq

/-- Mirror of the TryFrom u8 instance the convertible enum macro generates for
ContractPrefix in storage/sled.rs: an unrecognised byte yields the storage
error Unknown prefix. -/
def contractKindFromByte (b : Nat) : Except StoreErr ContractKind :=
  if b = 1 then .ok .Offered
  else if b = 2 then .ok .Accepted
  else if b = 3 then .ok .Signed
  else if b = 4 then .ok .Confirmed
  else if b = 5 then .ok .PreClosed
  else if b = 6 then .ok .Closed
  else if b = 7 then .ok .FailedAccept
  else if b = 8 then .ok .FailedSign
  else if b = 9 then .ok .Refunded
  else if b = 10 then .ok .Rejected
  else .error (.storageError "Unknown prefix")

/-- Mirror of deserialize on a contract record in storage/sled.rs: read the
tag byte (an io error when the record is empty), convert it (unknown bytes are
a storage error), then run the payload deserializer of that variant. -/
def deserialize_contract (buff : Bytes) : Except StoreErr Contract :=
  match buff with
  | [] => .error (.ioError "failed to fill whole buffer")
  | b :: rest =>
    match contractKindFromByte b with
    | .error e => .error e
    | .ok .Offered => (OfferedContract.deserialize rest).map Contract.Offered
    | .ok .Accepted => (AcceptedContract.deserialize rest).map Contract.Accepted
    | .ok .Signed => (SignedContract.deserialize rest).map Contract.Signed
    | .ok .Confirmed => (SignedContract.deserialize rest).map Contract.Confirmed
    | .ok .PreClosed => (PreClosedContract.deserialize rest).map Contract.PreClosed
    | .ok .Closed => (ClosedContract.deserialize rest).map Contract.Closed
    | .ok .FailedAccept => (FailedAcceptContract.deserialize rest).map Contract.FailedAccept
    | .ok .FailedSign => (FailedSignContract.deserialize rest).map Contract.FailedSign
    | .ok .Refunded => (SignedContract.deserialize rest).map Contract.Refunded
    | .ok .Rejected => (OfferedContract.deserialize rest).map Contract.Rejected

/-- Mirror of serialize on a channel in storage/sled.rs: the payload
serialization with the channel tag byte pushed in front, and for a signed
channel additionally the substate tag byte. -/
def serialize_channel (ch : Channel) : Bytes :=
  let serialized := match ch with
    | .Offered o => o.serialize
    | .Accepted a => a.serialize
    | .Signed s => s.serialize
    | .FailedAccept f => f.serialize
    | .FailedSign f => f.serialize
    | .Cancelled o => o.serialize
    | .Closing c => c.serialize
    | .Closed c => c.serialize
    | .CollaborativelyClosed c => c.serialize
    | .CounterClosed c => c.serialize
    | .ClosedPunished c => c.serialize
  match ch with
  | .Signed s => channelTag ch :: signedChannelTag s.stateType :: serialized
  | _ => channelTag ch :: serialized

/-- Mirror of the ChannelPrefix enum of storage/sled.rs, without payloads. -/
inductive ChannelKind : Type where
  | Offered
  | Accepted
  | Signed
  | FailedAccept
  | FailedSign
  | Closing
  | Closed
  | CounterClosed
  | ClosedPunished
  | CollaborativelyClosed
  | Cancelled
deriving DecidableEq

/-- Mirror of the TryFrom u8 instance the convertible enum macro generates for
ChannelPrefix in storage/sled.rs. -/
def channelKindFromByte (b : Nat) : Except StoreErr ChannelKind :=
  if b = 100 then .ok .Offered
  else if b = 101 then .ok .Accepted
  else if b = 102 then .ok .Signed
  else if b = 103 then .ok .FailedAccept
  else if b = 104 then .ok .FailedSign
  else if b = 105 then .ok .Closing
  else if b = 106 then .ok .Closed
  else if b = 107 then .ok .CounterClosed
  else if b = 108 then .ok .ClosedPunished
  else if b = 109 then .ok .CollaborativelyClosed
  else if b = 110 then .ok .Cancelled
  else .error (.storageError "Unknown prefix")

/-- Mirror of deserialize on a channel record in storage/sled.rs: read the tag
byte, convert it, and for a signed channel skip the substate byte before
running the payload deserializer. -/
def deserialize_channel (buff : Bytes) : Except StoreErr Channel :=
  match buff with
  | [] => .error (.ioError "failed to fill whole buffer")
  | b :: rest =>
    match channelKindFromByte b with
    | .error e => .error e
    | .ok .Offered => (OfferedChannel.deserialize rest).map Channel.Offered
    | .ok .Accepted => (AcceptedChannel.deserialize rest).map Channel.Accepted
    | .ok .Signed => (SignedChannel.deserialize (rest.drop 1)).map Channel.Signed
    | .ok .FailedAccept => (FailedAcceptChannel.deserialize rest).map Channel.FailedAccept
    | .ok .FailedSign => (FailedSignChannel.deserialize rest).map Channel.FailedSign
    | .ok .Cancelled => (OfferedChannel.deserialize rest).map Channel.Cancelled
    | .ok .Closed => (ClosedChannel.deserialize rest).map Channel.Closed
    | .ok .Closing => (ClosingChannel.deserialize rest).map Channel.Closing
    | .ok .CounterClosed => (ClosedChannel.deserialize rest).map Channel.CounterClosed
    | .ok .ClosedPunished => (ClosedPunishedChannel.deserialize rest).map Channel.ClosedPunished
    | .ok .CollaborativelyClosed => (ClosedChannel.deserialize rest).map Channel.CollaborativelyClosed

/-- A sled tree: an association list from key bytes to value bytes, with at
most one entry per key maintained by the insert operation. -/
abbrev Tree := List (Bytes × Bytes)

/-- Sled insert: replaces the value stored at the key, or appends a new
entry. -/
def treeInsert (k v : Bytes) : Tree → Tree
  | [] => [(k, v)]
  | (k', v') :: rest =>
    if k' = k then (k, v) :: rest else (k', v') :: treeInsert k v rest

/-- Sled remove: drops the entry stored at the key, if any. -/
def treeRemove (k : Bytes) : Tree → Tree
  | [] => []
  | (k', v') :: rest =>
    if k' = k then treeRemove k rest else (k', v') :: treeRemove k rest

/-- Sled get: the value stored at the key, if any. -/
def treeGet (k : Bytes) : Tree → Option Bytes
  | [] => none
  | (k', v) :: rest => if k' = k then some v else treeGet k rest

/-- The sled database of the storage provider: the contract tree and the
channel tree (the chain monitor and peer trees are not touched by the claims
under verification). -/
structure SledDb : Type where
  contractTree : Tree
  channelTree : Tree
deriving DecidableEq

/-- Mirror of get data with a tag filter in storage/sled.rs: iterate all
values of the tree; panic when a value is shorter than the tag bytes (rust
expect on read); keep values whose leading bytes equal the tag bytes,
optionally consuming extra bytes, and silently skip values whose payload fails
to deserialize (the ok call inside the filter map). -/
def getDataWithTag {α : Type} (deser : Bytes → Except StoreErr α)
    (tagBytes : Bytes) (consume : Option Nat) : Tree → DbResult (List α)
  | [] => .ok []
  | (_, v) :: rest =>
    if v.length < tagBytes.length then .panic "Error reading prefix"
    else if v.take tagBytes.length = tagBytes then
      let pos := tagBytes.length + (match consume with | some c => c | none => 0)
      match deser (v.drop pos) with
      | .ok a =>
        match getDataWithTag deser tagBytes consume rest with
        | .ok as => .ok (a :: as)
        | .err e => .err e
        | .panic m => .panic m
      | .error _ => getDataWithTag deser tagBytes consume rest
    else getDataWithTag deser tagBytes consume rest

/-- Mirror of get contract in storage/sled.rs: a missing key is Ok none; a
present record is deserialized, surfacing its error. -/
def get_contract (db : SledDb) (contractId : Bytes) : DbResult (Option Contract) :=
  match treeGet contractId db.contractTree with
  | none => .ok none
  | some v =>
    match deserialize_contract v with
    | .ok c => .ok (some c)
    | .error e => .err e

/-- Mirror of get contracts in storage/sled.rs: deserialize every value of the
contract tree, collecting into a single result that aborts at the first
deserialization error. -/
def get_contracts_from (t : Tree) : DbResult (List Contract) :=
  match t with
  | [] => .ok []
  | (_, v) :: rest =>
    match deserialize_contract v with
    | .error e => .err e
    | .ok c =>
      match get_contracts_from rest with
      | .ok cs => .ok (c :: cs)
      | .err e => .err e
      | .panic m => .panic m

/-- Mirror of get contracts in storage/sled.rs. -/
def get_contracts (db : SledDb) : DbResult (List Contract) :=
  get_contracts_from db.contractTree

/-- Mirror of create contract in storage/sled.rs: serialize the Offered
wrapper and insert it under the temporary id of the offer. -/
def create_contract (db : SledDb) (o : OfferedContract) : DbResult SledDb :=
  .ok { db with
    contractTree := treeInsert o.id (serialize_contract (.Offered o)) db.contractTree }

/-- Mirror of delete contract in storage/sled.rs. -/
def delete_contract (db : SledDb) (contractId : Bytes) : DbResult SledDb :=
  .ok { db with contractTree := treeRemove contractId db.contractTree }

/-- Mirror of update contract in storage/sled.rs: one transaction on the
contract tree that, for an Accepted or Signed contract, removes the record at
the temporary id, then inserts the serialized record at the current id. -/
def update_contract (db : SledDb) (c : Contract) : DbResult SledDb :=
  let serialized := serialize_contract c
  let t := match c with
    | .Accepted _ => treeRemove c.get_temporary_id db.contractTree
    | .Signed _ => treeRemove c.get_temporary_id db.contractTree
    | _ => db.contractTree
  .ok { db with contractTree := treeInsert c.get_id serialized t }

/-- Mirror of get contract offers in storage/sled.rs. -/
def get_contract_offers (db : SledDb) : DbResult (List OfferedContract) :=
  getDataWithTag OfferedContract.deserialize [1] none db.contractTree

/-- Mirror of get signed contracts in storage/sled.rs. -/
def get_signed_contracts (db : SledDb) : DbResult (List SignedContract) :=
  getDataWithTag SignedContract.deserialize [3] none db.contractTree

/-- Mirror of get confirmed contracts in storage/sled.rs. -/
def get_confirmed_contracts (db : SledDb) : DbResult (List SignedContract) :=
  getDataWithTag SignedContract.deserialize [4] none db.contractTree

/-- Mirror of get preclosed contracts in storage/sled.rs. -/
def get_preclosed_contracts (db : SledDb) : DbResult (List PreClosedContract) :=
  getDataWithTag PreClosedContract.deserialize [5] none db.contractTree

/-- Mirror of the insert contract helper of storage/sled.rs used inside the
upsert channel transaction: the same Accepted and Signed rekey as update. -/
def insert_contract (t : Tree) (serialized : Bytes) (c : Contract) : Tree :=
  let t' := match c with
    | .Accepted _ => treeRemove c.get_temporary_id t
    | .Signed _ => treeRemove c.get_temporary_id t
    | _ => t
  treeInsert c.get_id serialized t'

/-- Mirror of upsert channel in storage/sled.rs: one transaction spanning the
channel tree and the contract tree; an Accepted or Signed channel has its
temporary id record removed before the insert at its current id, and the
optional contract is written through the insert contract helper. -/
def upsert_channel (db : SledDb) (ch : Channel) (c : Option Contract) : DbResult SledDb :=
  let serialized := serialize_channel ch
  let serializedContract := c.map serialize_contract
  let chT := match ch with
    | .Accepted _ => treeRemove ch.get_temporary_id db.channelTree
    | .Signed _ => treeRemove ch.get_temporary_id db.channelTree
    | _ => db.channelTree
  let chT := treeInsert ch.get_id serialized chT
  let coT := match c, serializedContract with
    | some c0, some s0 => insert_contract db.contractTree s0 c0
    | _, _ => db.contractTree
  .ok { contractTree := coT, channelTree := chT }

/-- Mirror of delete channel in storage/sled.rs. -/
def delete_channel (db : SledDb) (channelId : Bytes) : DbResult SledDb :=
  .ok { db with channelTree := treeRemove channelId db.channelTree }

/-- Mirror of get channel in storage/sled.rs: a missing key is Ok none; a
present record is deserialized, surfacing its error. -/
def get_channel (db : SledDb) (channelId : Bytes) : DbResult (Option Channel) :=
  match treeGet channelId db.channelTree with
  | none => .ok none
  | some v =>
    match deserialize_channel v with
    | .ok ch => .ok (some ch)
    | .error e => .err e

/-- Mirror of get signed channels in storage/sled.rs: with a substate the tag
bytes are the Signed channel tag followed by the substate tag and nothing is
consumed; without one the tag is just the Signed channel tag and one byte (the
substate byte) is consumed before payload deserialization. -/
def get_signed_channels (db : SledDb) (channelState : Option SignedChannelStateType) :
    DbResult (List SignedChannel) :=
  let pc : Bytes × Option Nat := match channelState with
    | some st => ([102, signedChannelTag st], none)
    | none => ([102], some 1)
  getDataWithTag SignedChannel.deserialize pc.1 pc.2 db.channelTree

/-- Mirror of get offered channels in storage/sled.rs. -/
def get_offered_channels (db : SledDb) : DbResult (List OfferedChannel) :=
  getDataWithTag OfferedChannel.deserialize [100] none db.channelTree

/-- True exactly on the contract variants that trigger the temporary-id rekey
in update contract (the Accepted and Signed match arms of storage/sled.rs). -/
def Contract.isRekeyVariant : Contract → Bool
  | .Accepted _ => true
  | .Signed _ => true
  | _ => false

/-- True exactly on the channel variants that trigger the temporary-id rekey
in upsert channel (the Accepted and Signed match arms of storage/sled.rs). -/
def Channel.isRekeyVariant : Channel → Bool
  | .Accepted _ => true
  | .Signed _ => true
  | _ => false

/-- The signed channels among a list of channels, in order. -/
def signedChannelsOf (cs : List Channel) : List SignedChannel :=
  cs.filterMap fun ch => match ch with
    | .Signed s => some s
    | _ => none

/-- The signed channels among a list of channels that are in the given
substate, in order. -/
def signedChannelsWithState (st : SignedChannelStateType) (cs : List Channel) :
    List SignedChannel :=
  cs.filterMap fun ch => match ch with
    | .Signed s => if s.stateType = st then some s else none
    | _ => none

/-- The channel tree holding exactly the serialized records of the given
channels, each under its current id. -/
def channelRecords (cs : List Channel) : Tree :=
  cs.map fun ch => (ch.get_id, serialize_channel ch)

/-- A peer public key, opaque to the claims under verification. -/
abbrev Peer := Nat

/-- A wire DLC message, opaque to the claims under verification. -/
abbrev WireMsg := Nat

/-- Mirror of the ProcessMessages arm of the run manager loop in ddk.rs: for
each buffered pair the external on dlc message call is made and its result
unwrapped with expect, so the first failing message panics the worker thread
(Except.error with the expect text); otherwise an optional reply is sent.
The returned list is the sequence of replies handed to the transport. -/
def process_messages_arm (onMsg : Peer → WireMsg → Except String (Option WireMsg)) :
    List (Peer × WireMsg) → Except String (List (Peer × WireMsg))
  | [] => .ok []
  | (p, m) :: rest =>
    match onMsg p m with
    | .error _ => .error "no on dlc message"
    | .ok none => process_messages_arm onMsg rest
    | .ok (some reply) =>
      match process_messages_arm onMsg rest with
      | .ok sends => .ok ((p, reply) :: sends)
      | .error e => .error e

/-- Outcome observed by the caller of a synchronous API call in ddk.rs:
either the reply value, a typed error returned from the function, or a panic
(of the worker propagated through the dropped reply channel, unwrapped by the
caller with expect). -/
inductive CallerResult (α : Type) : Type where
  | ok (a : α)
  | typedError (e : String)
  | panicked (msg : String)
deriving DecidableEq

/-- Mirror of the OfferDlc arm of the run manager loop in ddk.rs: the external
send offer call result is unwrapped with expect, panicking the worker on
error; on success the offer is delivered on the reply channel. -/
def offer_dlc_arm (offerResult : Except String WireMsg) : Except String WireMsg :=
  match offerResult with
  | .ok offer => .ok offer
  | .error _ => .error "can't create offerdlc"

/-- Mirror of send dlc offer in ddk.rs: the caller blocks on the reply
channel; if the worker panicked the channel is dropped and the caller's
expect panics as well, so no typed error is ever produced. -/
def send_dlc_offer (offerResult : Except String WireMsg) : CallerResult WireMsg :=
  match offer_dlc_arm offerResult with
  | .ok offer => .ok offer
  | .error _ => .panicked "no offer dlc"

/-- Mirror of the AcceptDlc arm of the run manager loop in ddk.rs: the
external accept call result is unwrapped with expect. -/
def accept_dlc_arm (acceptResult : Except String (Bytes × Peer × WireMsg)) :
    Except String (Bytes × Peer × WireMsg) :=
  match acceptResult with
  | .ok reply => .ok reply
  | .error _ => .error "can't accept offer"

/-- Mirror of accept dlc offer in ddk.rs: like send dlc offer, a worker panic
propagates to the caller as a panic, never as a typed error. -/
def accept_dlc_offer (acceptResult : Except String (Bytes × Peer × WireMsg)) :
    CallerResult (Bytes × Peer × WireMsg) :=
  match accept_dlc_arm acceptResult with
  | .ok reply => .ok reply
  | .error _ => .panicked "coudlnt accept dlc"

/-- The runtime state observed by start in ddk.rs: whether the lock guarded
runtime handle is occupied, and how many worker threads and background tasks
have been spawned. -/
structure RuntimeState : Type where
  running : Bool
  workerCount : Nat
  taskCount : Nat
deriving DecidableEq

/-- Mirror of start in ddk.rs: when the runtime handle is already occupied it
returns the error string and changes nothing; otherwise it spawns one worker
thread and three background tasks (listener, wallet sync timer, process
messages timer) and stores the runtime handle. -/
def start (s : RuntimeState) : Except String Unit × RuntimeState :=
  if s.running then (.error "DDK is still running.", s)
  else (.ok (), { running := true, workerCount := s.workerCount + 1, taskCount := s.taskCount + 3 })

theorem decBytes_encBytes (x r : Bytes) : decBytes (encBytes x ++ r) = some (x, r) := by
  simp [encBytes, decBytes]

theorem signedStateFromTag_tag (st : SignedChannelStateType) :
    signedStateFromTag (signedChannelTag st) = some st := by
  cases st <;> rfl

theorem signedChannelTag_inj_iff (a b : SignedChannelStateType) :
    signedChannelTag a = signedChannelTag b ↔ a = b := by
  cases a <;> cases b <;> decide

theorem treeGet_treeInsert_self (k v : Bytes) (t : Tree) :
    treeGet k (treeInsert k v t) = some v := by
  induction t with
  | nil => simp [treeInsert, treeGet]
  | cons hd tl ih =>
    by_cases h : hd.1 = k
    · simp [treeInsert, treeGet, h]
    · simp [treeInsert, treeGet, h, ih]

theorem treeGet_treeInsert_ne (k k' v : Bytes) (t : Tree) (h : k' ≠ k) :
    treeGet k' (treeInsert k v t) = treeGet k' t := by
  have hne : ¬k = k' := fun hc => h hc.symm
  induction t with
  | nil => simp [treeInsert, treeGet, hne]
  | cons hd tl ih =>
    obtain ⟨k0, v0⟩ := hd
    by_cases hk : k0 = k
    · subst hk
      simp [treeInsert, treeGet, hne]
    · simp [treeInsert, treeGet, hk, ih]

theorem treeGet_treeRemove_self (k : Bytes) (t : Tree) :
    treeGet k (treeRemove k t) = none := by
  induction t with
  | nil => simp [treeRemove, treeGet]
  | cons hd tl ih =>
    by_cases h : hd.1 = k
    · simp [treeRemove, h, ih]
    · simp [treeRemove, treeGet, h, ih]

theorem treeRemove_absent (k : Bytes) (t : Tree) (h : treeGet k t = none) :
    treeRemove k t = t := by
  induction t with
  | nil => rfl
  | cons hd tl ih =>
    by_cases hk : hd.1 = k
    · simp [treeGet, hk] at h
    · simp [treeGet, hk] at h
      simp [treeRemove, hk, ih h]

/-- C1: for every contract and channel in the Accepted or Signed variant,
update contract (and the channel branch of upsert channel) commits, in one
transaction, a state in which the record sits under the entity's current id
and the temporary-id record is gone, so exactly one record exists for the
logical entity in the committed state. -/
theorem C1_rekey_atomic (db : SledDb) (c : Contract) (ch : Channel)
    (copt : Option Contract)
    (hc : c.isRekeyVariant = true) (hch : ch.isRekeyVariant = true)
    (hcid : c.get_temporary_id ≠ c.get_id) (hchid : ch.get_temporary_id ≠ ch.get_id) :
    (∃ db', update_contract db c = .ok db' ∧
      treeGet c.get_id db'.contractTree = some (serialize_contract c) ∧
      treeGet c.get_temporary_id db'.contractTree = none) ∧
    (∃ db', upsert_channel db ch copt = .ok db' ∧
      treeGet ch.get_id db'.channelTree = some (serialize_channel ch) ∧
      treeGet ch.get_temporary_id db'.channelTree = none) := by
  constructor
  · cases c
    case Accepted a =>
      refine ⟨_, rfl, treeGet_treeInsert_self _ _ _, ?_⟩
      rw [treeGet_treeInsert_ne _ _ _ _ hcid]
      exact treeGet_treeRemove_self _ _
    case Signed s =>
      refine ⟨_, rfl, treeGet_treeInsert_self _ _ _, ?_⟩
      rw [treeGet_treeInsert_ne _ _ _ _ hcid]
      exact treeGet_treeRemove_self _ _
    all_goals simp [Contract.isRekeyVariant] at hc
  · cases ch
    case Accepted a =>
      refine ⟨_, rfl, treeGet_treeInsert_self _ _ _, ?_⟩
      rw [treeGet_treeInsert_ne _ _ _ _ hchid]
      exact treeGet_treeRemove_self _ _
    case Signed s =>
      refine ⟨_, rfl, treeGet_treeInsert_self _ _ _, ?_⟩
      rw [treeGet_treeInsert_ne _ _ _ _ hchid]
      exact treeGet_treeRemove_self _ _
    all_goals simp [Channel.isRekeyVariant] at hch

/-- Witness for C1 at a concrete Accepted contract and Signed channel over the
empty store. -/
theorem C1_rekey_atomic_witness :
    (∃ db', update_contract ⟨[], []⟩ (.Accepted ⟨[1], [2], []⟩) = .ok db' ∧
      treeGet [2] db'.contractTree = some (serialize_contract (.Accepted ⟨[1], [2], []⟩)) ∧
      treeGet [1] db'.contractTree = none) ∧
    (∃ db', upsert_channel ⟨[], []⟩ (.Signed ⟨[3], [4], .Established, []⟩) none = .ok db' ∧
      treeGet [4] db'.channelTree = some (serialize_channel (.Signed ⟨[3], [4], .Established, []⟩)) ∧
      treeGet [3] db'.channelTree = none) :=
  C1_rekey_atomic ⟨[], []⟩ (.Accepted ⟨[1], [2], []⟩) (.Signed ⟨[3], [4], .Established, []⟩)
    none rfl rfl (by decide) (by decide)

/-- C2: serialization followed by deserialization is the identity on every
contract variant and every channel variant, including each signed-channel
substate. -/
theorem C2_serialization_roundtrip :
    (∀ c : Contract, deserialize_contract (serialize_contract c) = .ok c) ∧
    (∀ ch : Channel, deserialize_channel (serialize_channel ch) = .ok ch) := by
  constructor
  · intro c
    cases c <;>
      simp [serialize_contract, deserialize_contract, contractKindFromByte, contractTag,
        OfferedContract.serialize, OfferedContract.deserialize,
        AcceptedContract.serialize, AcceptedContract.deserialize,
        SignedContract.serialize, SignedContract.deserialize,
        FailedAcceptContract.serialize, FailedAcceptContract.deserialize,
        FailedSignContract.serialize, FailedSignContract.deserialize,
        PreClosedContract.serialize, PreClosedContract.deserialize,
        ClosedContract.serialize, ClosedContract.deserialize,
        decBytes_encBytes, Except.map]
  · intro ch
    cases ch <;>
      simp [serialize_channel, deserialize_channel, channelKindFromByte, channelTag,
        OfferedChannel.serialize, OfferedChannel.deserialize,
        AcceptedChannel.serialize, AcceptedChannel.deserialize,
        SignedChannel.serialize, SignedChannel.deserialize,
        FailedAcceptChannel.serialize, FailedAcceptChannel.deserialize,
        FailedSignChannel.serialize, FailedSignChannel.deserialize,
        ClosingChannel.serialize, ClosingChannel.deserialize,
        ClosedChannel.serialize, ClosedChannel.deserialize,
        ClosedPunishedChannel.serialize, ClosedPunishedChannel.deserialize,
        signedStateFromTag_tag, decBytes_encBytes, Except.map]

/-- C6: every serialized record is exactly one type tag byte with the numeric
values of the spec table, followed for signed channels by one substate tag
byte, followed by the type-specific payload. -/
theorem C6_record_format :
    (∀ o, serialize_contract (.Offered o) = 1 :: o.serialize) ∧
    (∀ a, serialize_contract (.Accepted a) = 2 :: a.serialize) ∧
    (∀ s, serialize_contract (.Signed s) = 3 :: s.serialize) ∧
    (∀ s, serialize_contract (.Confirmed s) = 4 :: s.serialize) ∧
    (∀ p, serialize_contract (.PreClosed p) = 5 :: p.serialize) ∧
    (∀ c, serialize_contract (.Closed c) = 6 :: c.serialize) ∧
    (∀ f, serialize_contract (.FailedAccept f) = 7 :: f.serialize) ∧
    (∀ f, serialize_contract (.FailedSign f) = 8 :: f.serialize) ∧
    (∀ s, serialize_contract (.Refunded s) = 9 :: s.serialize) ∧
    (∀ o, serialize_contract (.Rejected o) = 10 :: o.serialize) ∧
    (∀ o, serialize_channel (.Offered o) = 100 :: o.serialize) ∧
    (∀ a, serialize_channel (.Accepted a) = 101 :: a.serialize) ∧
    (∀ s, serialize_channel (.Signed s) = 102 :: signedChannelTag s.stateType :: s.serialize) ∧
    (∀ f, serialize_channel (.FailedAccept f) = 103 :: f.serialize) ∧
    (∀ f, serialize_channel (.FailedSign f) = 104 :: f.serialize) ∧
    (∀ c, serialize_channel (.Closing c) = 105 :: c.serialize) ∧
    (∀ c, serialize_channel (.Closed c) = 106 :: c.serialize) ∧
    (∀ c, serialize_channel (.CounterClosed c) = 107 :: c.serialize) ∧
    (∀ c, serialize_channel (.ClosedPunished c) = 108 :: c.serialize) ∧
    (∀ c, serialize_channel (.CollaborativelyClosed c) = 109 :: c.serialize) ∧
    (∀ o, serialize_channel (.Cancelled o) = 110 :: o.serialize) ∧
    signedChannelTag .Established = 1 ∧ signedChannelTag .SettledOffered = 2 ∧
    signedChannelTag .SettledReceived = 3 ∧ signedChannelTag .SettledAccepted = 4 ∧
    signedChannelTag .SettledConfirmed = 5 ∧ signedChannelTag .Settled = 6 ∧
    signedChannelTag .Closing = 7 ∧ signedChannelTag .CollaborativeCloseOffered = 8 ∧
    signedChannelTag .RenewAccepted = 9 ∧ signedChannelTag .RenewOffered = 10 ∧
    signedChannelTag .RenewFinalized = 11 ∧ signedChannelTag .RenewConfirmed = 12 :=
  ⟨fun _ => rfl, fun _ => rfl, fun _ => rfl, fun _ => rfl, fun _ => rfl, fun _ => rfl,
    fun _ => rfl, fun _ => rfl, fun _ => rfl, fun _ => rfl, fun _ => rfl, fun _ => rfl,
    fun _ => rfl, fun _ => rfl, fun _ => rfl, fun _ => rfl, fun _ => rfl, fun _ => rfl,
    fun _ => rfl, fun _ => rfl, fun _ => rfl, rfl, rfl, rfl, rfl, rfl, rfl, rfl, rfl,
    rfl, rfl, rfl, rfl⟩

/-- C7: deserializing a record whose first byte is neither a contract tag
(1 through 10, for the contract reader) nor a channel tag (100 through 110,
for the channel reader) yields the storage error Unknown prefix, never a
default variant. -/
theorem C7_unknown_tag (b : Nat) (rest : Bytes)
    (hc : ¬(1 ≤ b ∧ b ≤ 10)) (hch : ¬(100 ≤ b ∧ b ≤ 110)) :
    deserialize_contract (b :: rest) = .error (.storageError "Unknown prefix") ∧
    deserialize_channel (b :: rest) = .error (.storageError "Unknown prefix") := by
  constructor
  · have h : contractKindFromByte b = .error (.storageError "Unknown prefix") := by
      unfold contractKindFromByte
      repeat rw [if_neg (by omega)]
    simp [deserialize_contract, h]
  · have h : channelKindFromByte b = .error (.storageError "Unknown prefix") := by
      unfold channelKindFromByte
      repeat rw [if_neg (by omega)]
    simp [deserialize_channel, h]

/-- Witness for C7 at the byte 42, which is neither a contract nor a channel
tag. -/
theorem C7_unknown_tag_witness :
    deserialize_contract [42] = .error (.storageError "Unknown prefix") ∧
    deserialize_channel [42] = .error (.storageError "Unknown prefix") :=
  C7_unknown_tag 42 [] (by decide) (by decide)

/-- C9: calling start on a running instance returns the already-running error
and leaves the runtime state, worker count and task count unchanged; on a
non-running instance it succeeds and marks the instance running. -/
theorem C9_start_guard (s : RuntimeState) :
    (s.running = true → start s = (.error "DDK is still running.", s)) ∧
    (s.running = false → (start s).1 = .ok () ∧ (start s).2.running = true ∧
      (start s).2.workerCount = s.workerCount + 1 ∧
      (start s).2.taskCount = s.taskCount + 3) := by
  constructor <;> intro h <;> simp [start, h]

/-- Witness for C9: a second start on a running instance with one worker fails
and changes nothing; a first start on a fresh instance succeeds. -/
theorem C9_start_guard_witness :
    start ⟨true, 1, 3⟩ = (.error "DDK is still running.", ⟨true, 1, 3⟩) ∧
    ((start ⟨false, 0, 0⟩).1 = .ok () ∧ (start ⟨false, 0, 0⟩).2.running = true ∧
      (start ⟨false, 0, 0⟩).2.workerCount = 0 + 1 ∧
      (start ⟨false, 0, 0⟩).2.taskCount = 0 + 3) :=
  ⟨(C9_start_guard ⟨true, 1, 3⟩).1 rfl, (C9_start_guard ⟨false, 0, 0⟩).2 rfl⟩

/-- C10: for an id with no stored record, get contract and get channel return
Ok none rather than an error, and delete contract and delete channel return Ok
with the store unchanged. -/
theorem C10_absent_id (db : SledDb) (i : Bytes)
    (h1 : treeGet i db.contractTree = none) (h2 : treeGet i db.channelTree = none) :
    get_contract db i = .ok none ∧ get_channel db i = .ok none ∧
    delete_contract db i = .ok db ∧ delete_channel db i = .ok db := by
  refine ⟨?_, ?_, ?_, ?_⟩
  · simp [get_contract, h1]
  · simp [get_channel, h2]
  · simp [delete_contract, treeRemove_absent _ _ h1]
  · simp [delete_channel, treeRemove_absent _ _ h2]

/-- Witness for C10 at a store holding one unrelated contract record. -/
theorem C10_absent_id_witness :
    get_contract ⟨[([1], [2])], []⟩ [9] = .ok none ∧
    get_channel ⟨[([1], [2])], []⟩ [9] = .ok none ∧
    delete_contract ⟨[([1], [2])], []⟩ [9] = .ok ⟨[([1], [2])], []⟩ ∧
    delete_channel ⟨[([1], [2])], []⟩ [9] = .ok ⟨[([1], [2])], []⟩ :=
  C10_absent_id ⟨[([1], [2])], []⟩ [9] (by decide) rfl

/-- C4 counterexample: with a handler that fails on the first buffered message
and would answer the second, the ProcessMessages arm stops with the worker
panic instead of continuing with the next message, while the second message
alone would be processed; this refutes the claim that one failing message is
dropped and processing continues. -/
theorem C4_counterexample :
    process_messages_arm (fun _ m => if m = 0 then .error "bad" else .ok (some m))
      [(1, 0), (2, 5)] = .error "no on dlc message" ∧
    process_messages_arm (fun _ m => if m = 0 then .error "bad" else .ok (some m))
      [(2, 5)] = .ok [(2, 5)] :=
  ⟨rfl, rfl⟩

/-- C4 amended: a failure applying one buffered inbound message panics the
worker thread (the expect in the ProcessMessages arm), so the remaining
buffered messages are not processed. -/
theorem C4_amended (onMsg : Peer → WireMsg → Except String (Option WireMsg))
    (p : Peer) (m : WireMsg) (rest : List (Peer × WireMsg)) (e : String)
    (h : onMsg p m = .error e) :
    process_messages_arm onMsg ((p, m) :: rest) = .error "no on dlc message" := by
  simp [process_messages_arm, h]

/-- Witness for the amended C4 at a concrete failing handler. -/
theorem C4_amended_witness :
    process_messages_arm (fun _ m => if m = 0 then .error "bad" else .ok (some m))
      [(1, 0), (2, 5)] = .error "no on dlc message" :=
  C4_amended (fun _ m => if m = 0 then .error "bad" else .ok (some m)) 1 0 [(2, 5)] "bad" rfl

/-- C5 counterexample: when handling an OfferDlc or AcceptDlc command fails,
the caller observes a panic (the worker's expect kills the worker, dropping
the reply channel, and the caller's expect on recv panics in turn), not a
typed error; this refutes the claim that the failure is returned as a typed
error to the blocked caller. -/
theorem C5_counterexample :
    send_dlc_offer (.error "protocol error") = .panicked "no offer dlc" ∧
    accept_dlc_offer (.error "protocol error") = .panicked "coudlnt accept dlc" :=
  ⟨rfl, rfl⟩

/-- C5 amended: a failure handling a synchronous OfferDlc or AcceptDlc command
panics the worker thread and the blocked caller then panics on its reply
channel; no typed error is returned and nothing is retried. -/
theorem C5_amended (r1 : Except String WireMsg)
    (r2 : Except String (Bytes × Peer × WireMsg)) (e1 e2 : String)
    (h1 : r1 = .error e1) (h2 : r2 = .error e2) :
    send_dlc_offer r1 = .panicked "no offer dlc" ∧
    accept_dlc_offer r2 = .panicked "coudlnt accept dlc" := by
  subst h1
  subst h2
  exact ⟨rfl, rfl⟩

/-- Witness for the amended C5 at concrete failing manager calls. -/
theorem C5_amended_witness :
    send_dlc_offer (.error "offer failed") = .panicked "no offer dlc" ∧
    accept_dlc_offer (.error "accept failed") = .panicked "coudlnt accept dlc" :=
  C5_amended (.error "offer failed") (.error "accept failed") "offer failed" "accept failed"
    rfl rfl

theorem get_contracts_from_err :
    ∀ (t : Tree) (k v : Bytes) (e : StoreErr), (k, v) ∈ t →
      deserialize_contract v = .error e → (get_contracts_from t).isErr = true := by
  intro t
  induction t with
  | nil =>
    intro k v e hmem _
    cases hmem
  | cons hd tl ih =>
    intro k v e hmem herr
    obtain ⟨k0, v0⟩ := hd
    rcases List.mem_cons.mp hmem with heq | hmem'
    · have hv : v = v0 := congrArg Prod.snd heq
      subst hv
      simp [get_contracts_from, herr, DbResult.isErr]
    · cases hd0 : deserialize_contract v0 with
      | error e0 => simp [get_contracts_from, hd0, DbResult.isErr]
      | ok c0 =>
        have ih' := ih k v e hmem' herr
        cases hrec : get_contracts_from tl with
        | ok as =>
          rw [hrec] at ih'
          simp [DbResult.isErr] at ih'
        | err e0 => simp [get_contracts_from, hd0, hrec, DbResult.isErr]
        | panic msg =>
          rw [hrec] at ih'
          simp [DbResult.isErr] at ih'

theorem getDataWithTag_not_err {α : Type} (deser : Bytes → Except StoreErr α)
    (tagBytes : Bytes) (consume : Option Nat) (t : Tree) :
    (getDataWithTag deser tagBytes consume t).isErr = false := by
  induction t with
  | nil => simp [getDataWithTag, DbResult.isErr]
  | cons hd tl ih =>
    obtain ⟨k0, v0⟩ := hd
    simp only [getDataWithTag]
    split
    · simp [DbResult.isErr]
    · split
      · split
        · split <;> simp_all [DbResult.isErr]
        · exact ih
      · exact ih

/-- C3 counterexample: the store holding the single contract record 1 (the
Offered tag with an empty payload, whose deserialization fails) makes get
contract offers return Ok with the failing record silently omitted, instead of
aborting with a StorageError as the claim states for every read operation. -/
theorem C3_counterexample :
    deserialize_contract [1] = .error (.storageError "deserialize") ∧
    get_contract_offers ⟨[([9], [1])], []⟩ = .ok [] :=
  ⟨rfl, rfl⟩

/-- C3 amended: get contract and get contracts abort with the record's
StorageError when a stored record fails to deserialize, but the filtered reads
(contract offers, signed, confirmed and preclosed contracts, offered and
signed channels) never surface a StorageError: a record whose payload fails to
deserialize is silently skipped. -/
theorem C3_amended :
    (∀ (db : SledDb) (i v : Bytes) (e : StoreErr),
      treeGet i db.contractTree = some v → deserialize_contract v = .error e →
      get_contract db i = .err e) ∧
    (∀ (db : SledDb) (k v : Bytes) (e : StoreErr),
      (k, v) ∈ db.contractTree → deserialize_contract v = .error e →
      (get_contracts db).isErr = true) ∧
    (∀ db : SledDb,
      (get_contract_offers db).isErr = false ∧
      (get_signed_contracts db).isErr = false ∧
      (get_confirmed_contracts db).isErr = false ∧
      (get_preclosed_contracts db).isErr = false ∧
      (get_offered_channels db).isErr = false ∧
      ∀ st, (get_signed_channels db st).isErr = false) := by
  refine ⟨?_, ?_, ?_⟩
  · intro db i v e hget herr
    simp [get_contract, hget, herr]
  · intro db k v e hmem herr
    exact get_contracts_from_err db.contractTree k v e hmem herr
  · intro db
    refine ⟨getDataWithTag_not_err _ _ _ _, getDataWithTag_not_err _ _ _ _,
      getDataWithTag_not_err _ _ _ _, getDataWithTag_not_err _ _ _ _,
      getDataWithTag_not_err _ _ _ _, ?_⟩
    intro st
    cases st with
    | none => exact getDataWithTag_not_err _ _ _ _
    | some st0 => exact getDataWithTag_not_err _ _ _ _

/-- Witness for the amended C3 at the store holding the undeserializable
contract record 1 under the key 9. -/
theorem C3_amended_witness :
    get_contract ⟨[([9], [1])], []⟩ [9] = .err (.storageError "deserialize") ∧
    (get_contracts ⟨[([9], [1])], []⟩).isErr = true ∧
    (get_contract_offers ⟨[([9], [1])], []⟩).isErr = false :=
  ⟨C3_amended.1 ⟨[([9], [1])], []⟩ [9] [1] (.storageError "deserialize") rfl rfl,
    C3_amended.2.1 ⟨[([9], [1])], []⟩ [9] [1] (.storageError "deserialize") (by simp) rfl,
    (C3_amended.2.2 ⟨[([9], [1])], []⟩).1⟩


theorem SignedChannel.deserialize_serialize (s : SignedChannel) :
    SignedChannel.deserialize s.serialize = .ok s := by
  simp [SignedChannel.serialize, SignedChannel.deserialize, signedStateFromTag_tag,
    decBytes_encBytes]

theorem gdwt_one_skip {A : Type} (deser : Bytes -> Except StoreErr A) (k : Bytes)
    (b : Nat) (rest : Bytes) (t : Tree) (hb : b ≠ 102) :
    getDataWithTag deser [102] (some 1) ((k, b :: rest) :: t) =
      getDataWithTag deser [102] (some 1) t := by
  simp [getDataWithTag, hb]

theorem gdwt_one_hit {A : Type} (deser : Bytes -> Except StoreErr A) (k : Bytes)
    (c : Nat) (payload : Bytes) (t : Tree) (a : A) (as : List A)
    (hdes : deser payload = .ok a)
    (ht : getDataWithTag deser [102] (some 1) t = .ok as) :
    getDataWithTag deser [102] (some 1) ((k, 102 :: c :: payload) :: t) = .ok (a :: as) := by
  simp [getDataWithTag, hdes, ht]

theorem gdwt_two_skip {A : Type} (deser : Bytes -> Except StoreErr A) (x : Nat) (k : Bytes)
    (b c : Nat) (rest : Bytes) (t : Tree) (hb : b ≠ 102) :
    getDataWithTag deser [102, x] none ((k, b :: c :: rest) :: t) =
      getDataWithTag deser [102, x] none t := by
  simp [getDataWithTag, hb]

theorem gdwt_two_miss {A : Type} (deser : Bytes -> Except StoreErr A) (x : Nat) (k : Bytes)
    (c : Nat) (payload : Bytes) (t : Tree) (hx : c ≠ x) :
    getDataWithTag deser [102, x] none ((k, 102 :: c :: payload) :: t) =
      getDataWithTag deser [102, x] none t := by
  simp [getDataWithTag, hx]

theorem gdwt_two_hit {A : Type} (deser : Bytes -> Except StoreErr A) (x : Nat) (k : Bytes)
    (c : Nat) (payload : Bytes) (t : Tree) (a : A) (as : List A)
    (hx : c = x) (hdes : deser payload = .ok a)
    (ht : getDataWithTag deser [102, x] none t = .ok as) :
    getDataWithTag deser [102, x] none ((k, 102 :: c :: payload) :: t) = .ok (a :: as) := by
  subst hx
  simp [getDataWithTag, hdes, ht]

theorem gsc_none_spec : ∀ cs : List Channel,
    getDataWithTag SignedChannel.deserialize [102] (some 1) (channelRecords cs) =
      .ok (signedChannelsOf cs) := by
  intro cs
  induction cs with
  | nil => rfl
  | cons ch cs ih =>
    cases ch
    case Signed s =>
      exact gdwt_one_hit _ _ _ _ _ _ _ (SignedChannel.deserialize_serialize s) ih
    case Offered o => exact (gdwt_one_skip _ _ _ _ _ (by simp [channelTag])).trans ih
    case Accepted a => exact (gdwt_one_skip _ _ _ _ _ (by simp [channelTag])).trans ih
    case FailedAccept f => exact (gdwt_one_skip _ _ _ _ _ (by simp [channelTag])).trans ih
    case FailedSign f => exact (gdwt_one_skip _ _ _ _ _ (by simp [channelTag])).trans ih
    case Closing c => exact (gdwt_one_skip _ _ _ _ _ (by simp [channelTag])).trans ih
    case Closed c => exact (gdwt_one_skip _ _ _ _ _ (by simp [channelTag])).trans ih
    case CounterClosed c => exact (gdwt_one_skip _ _ _ _ _ (by simp [channelTag])).trans ih
    case ClosedPunished c => exact (gdwt_one_skip _ _ _ _ _ (by simp [channelTag])).trans ih
    case CollaborativelyClosed c => exact (gdwt_one_skip _ _ _ _ _ (by simp [channelTag])).trans ih
    case Cancelled o => exact (gdwt_one_skip _ _ _ _ _ (by simp [channelTag])).trans ih

theorem gsc_some_spec (st : SignedChannelStateType) : ∀ cs : List Channel,
    getDataWithTag SignedChannel.deserialize [102, signedChannelTag st] none
      (channelRecords cs) = .ok (signedChannelsWithState st cs) := by
  intro cs
  induction cs with
  | nil => rfl
  | cons ch cs ih =>
    cases ch
    case Signed s =>
      by_cases hst : s.stateType = st
      · have h2 : signedChannelsWithState st (Channel.Signed s :: cs) =
            s :: signedChannelsWithState st cs := by
          simp [signedChannelsWithState, hst]
        rw [h2]
        exact gdwt_two_hit _ _ _ _ _ _ _ _ (congrArg signedChannelTag hst)
          (SignedChannel.deserialize_serialize s) ih
      · have h2 : signedChannelsWithState st (Channel.Signed s :: cs) =
            signedChannelsWithState st cs := by
          simp [signedChannelsWithState, hst]
        rw [h2]
        refine (gdwt_two_miss _ _ _ _ _ _ ?_).trans ih
        exact fun hc => hst ((signedChannelTag_inj_iff _ _).mp hc)
    case Offered o => exact (gdwt_two_skip _ _ _ _ _ _ _ (by simp [channelTag])).trans ih
    case Accepted a => exact (gdwt_two_skip _ _ _ _ _ _ _ (by simp [channelTag])).trans ih
    case FailedAccept f => exact (gdwt_two_skip _ _ _ _ _ _ _ (by simp [channelTag])).trans ih
    case FailedSign f => exact (gdwt_two_skip _ _ _ _ _ _ _ (by simp [channelTag])).trans ih
    case Closing c => exact (gdwt_two_skip _ _ _ _ _ _ _ (by simp [channelTag])).trans ih
    case Closed c => exact (gdwt_two_skip _ _ _ _ _ _ _ (by simp [channelTag])).trans ih
    case CounterClosed c => exact (gdwt_two_skip _ _ _ _ _ _ _ (by simp [channelTag])).trans ih
    case ClosedPunished c => exact (gdwt_two_skip _ _ _ _ _ _ _ (by simp [channelTag])).trans ih
    case CollaborativelyClosed c => exact (gdwt_two_skip _ _ _ _ _ _ _ (by simp [channelTag])).trans ih
    case Cancelled o => exact (gdwt_two_skip _ _ _ _ _ _ _ (by simp [channelTag])).trans ih


/-- C8: over a store whose channel tree holds exactly the serialized records
of a list of channels, get signed channels with no substate returns exactly
the signed channels, and with a substate exactly the signed channels in that
substate. -/
theorem C8_get_signed_channels (db : SledDb) (cs : List Channel)
    (h : db.channelTree = channelRecords cs) :
    get_signed_channels db none = .ok (signedChannelsOf cs) ∧
    ∀ st, get_signed_channels db (some st) = .ok (signedChannelsWithState st cs) := by
  constructor
  · have hx := gsc_none_spec cs
    rw [← h] at hx
    exact hx
  · intro st
    have hx := gsc_some_spec st cs
    rw [← h] at hx
    exact hx

/-- Witness for C8: the claim's scenario, with one Established and one Settled
signed channel stored through upsert channel; the substate query returns
exactly one channel and the unfiltered query exactly two. -/
theorem C8_get_signed_channels_witness :
    upsert_channel ⟨[], []⟩ (.Signed ⟨[1], [2], .Established, []⟩) none =
      .ok ⟨[], [([2], serialize_channel (.Signed ⟨[1], [2], .Established, []⟩))]⟩ ∧
    upsert_channel ⟨[], [([2], serialize_channel (.Signed ⟨[1], [2], .Established, []⟩))]⟩
        (.Signed ⟨[3], [4], .Settled, []⟩) none =
      .ok ⟨[], [([2], serialize_channel (.Signed ⟨[1], [2], .Established, []⟩)),
                ([4], serialize_channel (.Signed ⟨[3], [4], .Settled, []⟩))]⟩ ∧
    get_signed_channels
        ⟨[], [([2], serialize_channel (.Signed ⟨[1], [2], .Established, []⟩)),
              ([4], serialize_channel (.Signed ⟨[3], [4], .Settled, []⟩))]⟩ none =
      .ok [⟨[1], [2], .Established, []⟩, ⟨[3], [4], .Settled, []⟩] ∧
    get_signed_channels
        ⟨[], [([2], serialize_channel (.Signed ⟨[1], [2], .Established, []⟩)),
              ([4], serialize_channel (.Signed ⟨[3], [4], .Settled, []⟩))]⟩
        (some .Established) =
      .ok [⟨[1], [2], .Established, []⟩] :=
  ⟨rfl, rfl,
    (C8_get_signed_channels _
      [.Signed ⟨[1], [2], .Established, []⟩, .Signed ⟨[3], [4], .Settled, []⟩] rfl).1,
    (C8_get_signed_channels _
      [.Signed ⟨[1], [2], .Established, []⟩, .Signed ⟨[3], [4], .Settled, []⟩] rfl).2
      .Established⟩

end DlcDevKit
